import Mathlib

/-!
Verification development for the stock-advisor analysis core
(`analysis/indicators.py`, `analysis/signals.py`, `analysis/anomaly.py`).

Modelling conventions:
* A pandas numeric cell is `Option ℚ`; `none` models NaN (undefined).
  Exact binary-float values are abstracted to rationals.
* Comparisons against NaN are `false`, as in IEEE semantics used by pandas.
* Division whose denominator is 0 yields `none`.  (For a nonzero numerator
  IEEE float division would yield ±inf; no analysed property distinguishes
  inf from NaN, and both are "not a real value", so both map to `none`.)
* The floating-point square root used by `rolling.std()` is not exactly
  representable over ℚ; it is abstracted as an explicit function parameter
  `sqrtA : ℚ → ℚ` applied to the exactly-computed (ddof = 1) variance.
  All theorems below hold for every choice of `sqrtA`.
* Python exceptions are modelled by `Except String`.
-/

-- Batteries marks the `Rat` field operations `@[irreducible]`; restore the
-- default reducibility so that concrete rational computations can be settled
-- by `decide` through the kernel.
set_option allowUnsafeReducibility true in
attribute [semireducible] Rat.add Rat.mul Rat.sub Rat.inv Rat.ofScientific

/-- Value of cell `t` of a column; out of range or NaN is `none`. -/
def cell (xs : List (Option ℚ)) (t : ℕ) : Option ℚ := xs.getD t none

/-- NaN-aware strict less-than: false when either side is undefined. -/
def oltB (a b : Option ℚ) : Bool :=
  match a, b with
  | some x, some y => decide (x < y)
  | _, _ => false

/-- NaN-aware strict greater-than. -/
def ogtB (a b : Option ℚ) : Bool := oltB b a

/-- NaN-aware less-or-equal: false when either side is undefined. -/
def oleB (a b : Option ℚ) : Bool :=
  match a, b with
  | some x, some y => decide (x ≤ y)
  | _, _ => false

/-- NaN-aware greater-or-equal. -/
def ogeB (a b : Option ℚ) : Bool := oleB b a

/-- NaN-propagating subtraction. -/
def osub (a b : Option ℚ) : Option ℚ :=
  match a, b with
  | some x, some y => some (x - y)
  | _, _ => none

/-- NaN-propagating addition. -/
def oadd (a b : Option ℚ) : Option ℚ :=
  match a, b with
  | some x, some y => some (x + y)
  | _, _ => none

/-- NaN-propagating multiplication. -/
def omul (a b : Option ℚ) : Option ℚ :=
  match a, b with
  | some x, some y => some (x * y)
  | _, _ => none

/-- NaN-propagating division; a zero denominator yields `none`. -/
def odiv (a b : Option ℚ) : Option ℚ :=
  match a, b with
  | some x, some y => if y = 0 then none else some (x / y)
  | _, _ => none

/-- NaN-propagating absolute value. -/
def oabs (a : Option ℚ) : Option ℚ := a.map (fun x => |x|)

/-- Maximum that skips undefined operands (pandas `max(axis=1)` skipna). -/
def omax (a b : Option ℚ) : Option ℚ :=
  match a, b with
  | some x, some y => some (max x y)
  | some x, none => some x
  | none, some y => some y
  | none, none => none

/-- Round half to even at integer precision, as Python `round` does. -/
def rhalfEven (x : ℚ) : ℤ :=
  if x - (⌊x⌋ : ℚ) < 1/2 then ⌊x⌋
  else if (1:ℚ)/2 < x - (⌊x⌋ : ℚ) then ⌊x⌋ + 1
  else if ⌊x⌋ % 2 = 0 then ⌊x⌋ else ⌊x⌋ + 1

/-- Python `round(x, nd)` modelled over ℚ. -/
def pyRound (nd : ℕ) (x : ℚ) : ℚ := (rhalfEven (x * 10 ^ nd) : ℚ) / 10 ^ nd

/-- Python `int(x)` on a float: truncation toward zero. -/
def pyInt (x : ℚ) : ℤ := if 0 ≤ x then ⌊x⌋ else ⌈x⌉

/-- Arithmetic mean of a list of rationals (`sum(votes) / len(votes)`). -/
def meanQ (l : List ℚ) : ℚ := l.sum / (l.length : ℚ)

/-- Build a column of length `n` from a per-index formula. -/
def idxMap (n : ℕ) (f : ℕ → Option ℚ) : List (Option ℚ) := (List.range n).map f

/-- Sequence a list of optional values; `none` if any entry is undefined. -/
def seqO : List (Option ℚ) → Option (List ℚ)
  | [] => some []
  | none :: _ => none
  | some x :: rest => (seqO rest).map (fun l => x :: l)

/-- Trailing window of width `w` ending at `t`; defined only when the window
fits and every cell in it is defined (pandas rolling with default
`min_periods = window`). -/
def rollWindow (w : ℕ) (xs : List (Option ℚ)) (t : ℕ) : Option (List ℚ) :=
  if w ≤ t + 1 then seqO ((List.range w).map (fun j => cell xs (t + 1 - w + j)))
  else none

/-- Pandas `rolling(w).mean()`. -/
def rollingMean (w : ℕ) (xs : List (Option ℚ)) : List (Option ℚ) :=
  idxMap xs.length (fun t => (rollWindow w xs t).map (fun l => l.sum / (w : ℚ)))

/-- Pandas `rolling(w).sum()`. -/
def rollingSum (w : ℕ) (xs : List (Option ℚ)) : List (Option ℚ) :=
  idxMap xs.length (fun t => (rollWindow w xs t).map (fun l => l.sum))

/-- Pandas `rolling(w).var()` with ddof = 1 (undefined for `w ≤ 1`). -/
def rollingVarS (w : ℕ) (xs : List (Option ℚ)) : List (Option ℚ) :=
  idxMap xs.length (fun t =>
    if 2 ≤ w then
      (rollWindow w xs t).map (fun l =>
        (l.map (fun x => (x - l.sum / (w : ℚ)) ^ 2)).sum / ((w : ℚ) - 1))
    else none)

/-- Pandas `diff()`. -/
def diffL (xs : List (Option ℚ)) : List (Option ℚ) :=
  idxMap xs.length (fun t => if 1 ≤ t then osub (cell xs t) (cell xs (t - 1)) else none)

/-- Pandas `pct_change(n)`: `(x_t - x_{t-n}) / x_{t-n}` (no forward fill). -/
def pctChange (n : ℕ) (xs : List (Option ℚ)) : List (Option ℚ) :=
  idxMap xs.length (fun t =>
    if n ≤ t then odiv (osub (cell xs t) (cell xs (t - n))) (cell xs (t - n)) else none)

/-- Elementwise `clip(lower=0)`. -/
def clipLo0 (xs : List (Option ℚ)) : List (Option ℚ) :=
  xs.map (Option.map (fun x => max x 0))

/-- Elementwise `-clip(upper=0)` (the loss leg of RSI). -/
def negClipHi0 (xs : List (Option ℚ)) : List (Option ℚ) :=
  xs.map (Option.map (fun x => -(min x 0)))

/-- Multiply every defined cell by a constant. -/
def scaleL (c : ℚ) (xs : List (Option ℚ)) : List (Option ℚ) :=
  xs.map (Option.map (fun x => x * c))

/-- Pointwise combination of two columns, indexed over the first one. -/
def zipCells (f : Option ℚ → Option ℚ → Option ℚ)
    (xs ys : List (Option ℚ)) : List (Option ℚ) :=
  idxMap xs.length (fun t => f (cell xs t) (cell ys t))

/-- Number of defined observations among cells `0..t`. -/
def ewmCount (xs : List (Option ℚ)) (t : ℕ) : ℕ :=
  ((List.range (t + 1)).filter (fun i => (cell xs i).isSome)).length

/-- Weighted numerator of `ewm(adjust=True, ignore_na=False)` at `t`. -/
def ewmNum (a : ℚ) (xs : List (Option ℚ)) (t : ℕ) : ℚ :=
  ((List.range (t + 1)).map (fun i =>
    match cell xs i with
    | some x => (1 - a) ^ (t - i) * x
    | none => 0)).sum

/-- Weight total of `ewm(adjust=True, ignore_na=False)` at `t`. -/
def ewmDen (a : ℚ) (xs : List (Option ℚ)) (t : ℕ) : ℚ :=
  ((List.range (t + 1)).map (fun i =>
    if (cell xs i).isSome then (1 - a) ^ (t - i) else 0)).sum

/-- Pandas `ewm(alpha=a, adjust=True, min_periods=mp).mean()`. -/
def ewmAdj (a : ℚ) (mp : ℕ) (xs : List (Option ℚ)) : List (Option ℚ) :=
  idxMap xs.length (fun t =>
    if max mp 1 ≤ ewmCount xs t then some (ewmNum a xs t / ewmDen a xs t) else none)

/-- State of `ewm(adjust=False, ignore_na=False)`: current mean and the
number of periods since the last defined observation. -/
def ewmNoAdjState (a : ℚ) (xs : List (Option ℚ)) : ℕ → Option (ℚ × ℕ)
  | 0 =>
    match cell xs 0 with
    | some x => some (x, 1)
    | none => none
  | t + 1 =>
    match ewmNoAdjState a xs t, cell xs (t + 1) with
    | none, some x => some (x, 1)
    | none, none => none
    | some (m, k), some x =>
      some (((1 - a) ^ k * m + a * x) / ((1 - a) ^ k + a), 1)
    | some (m, k), none => some (m, k + 1)

/-- Pandas `ewm(alpha=a, adjust=False).mean()`. -/
def ewmNoAdj (a : ℚ) (xs : List (Option ℚ)) : List (Option ℚ) :=
  idxMap xs.length (fun t => (ewmNoAdjState a xs t).map (fun p => p.1))

/-- Alpha corresponding to `ewm(span=s)`: `2 / (s + 1)`. -/
def spanAlpha (s : ℚ) : ℚ := 2 / (s + 1)

-- ── Indicator parameters (config.INDICATOR_PARAMS / SIGNAL_THRESHOLDS) ──

def ma_periods : List ℕ := [5, 10, 20, 60]
def rsi_period : ℕ := 14
def macd_fast : ℚ := 12
def macd_slow : ℚ := 26
def macd_signal_span : ℚ := 9
def boll_period : ℕ := 20
def boll_std : ℚ := 2
def adx_period : ℚ := 14
def roc_period : ℕ := 12
def mom_period : ℕ := 10
def vol_ma_periods : List ℕ := [5, 10, 20]
def vroc_period : ℕ := 12
def mfi_period : ℕ := 14

def rsi_overbought : ℚ := 70
def rsi_oversold : ℚ := 30
def adx_strong : ℚ := 25

namespace Indicators

/-- MA column for one period `p` (`_ma`). -/
def maCol (p : ℕ) (close : List (Option ℚ)) : List (Option ℚ) := rollingMean p close

/-- ROC column (`_roc`): `close.pct_change(n) * 100`. -/
def rocCol (close : List (Option ℚ)) : List (Option ℚ) :=
  scaleL 100 (pctChange roc_period close)

/-- Momentum column (`_momentum`): `close - close.shift(n)`. -/
def momCol (close : List (Option ℚ)) : List (Option ℚ) :=
  idxMap close.length (fun t =>
    if mom_period ≤ t then osub (cell close t) (cell close (t - mom_period)) else none)

/-- Wilder average gain of RSI (`gain.ewm(com=n-1, min_periods=n).mean()`;
`com = n - 1` gives `alpha = 1 / n`). -/
def rsiAvgGain (close : List (Option ℚ)) : List (Option ℚ) :=
  ewmAdj (1 / (rsi_period : ℚ)) rsi_period (clipLo0 (diffL close))

/-- Wilder average loss of RSI. -/
def rsiAvgLoss (close : List (Option ℚ)) : List (Option ℚ) :=
  ewmAdj (1 / (rsi_period : ℚ)) rsi_period (negClipHi0 (diffL close))

/-- RSI column (`_rsi`): `100 - 100 / (1 + rs)` where
`rs = avg_gain / avg_loss.replace(0, nan)`. -/
def rsiCol (close : List (Option ℚ)) : List (Option ℚ) :=
  idxMap close.length (fun t =>
    match cell (rsiAvgGain close) t, cell (rsiAvgLoss close) t with
    | some g, some l => if l = 0 then none else some (100 - 100 / (1 + g / l))
    | _, _ => none)

/-- MACD line (`_macd`): `EMA(close, fast) - EMA(close, slow)`. -/
def macdCol (close : List (Option ℚ)) : List (Option ℚ) :=
  zipCells osub (ewmNoAdj (spanAlpha macd_fast) close) (ewmNoAdj (spanAlpha macd_slow) close)

/-- MACD signal line: `MACD.ewm(span=signal, adjust=False).mean()`. -/
def macdSignalCol (close : List (Option ℚ)) : List (Option ℚ) :=
  ewmNoAdj (spanAlpha macd_signal_span) (macdCol close)

/-- MACD histogram: `MACD - MACD_signal`. -/
def macdHistCol (close : List (Option ℚ)) : List (Option ℚ) :=
  zipCells osub (macdCol close) (macdSignalCol close)

/-- True range (`_adx`): rowwise max of `high - low`, `|high - prev_close|`,
`|low - prev_close|` (pandas `max(axis=1)` skips NaN). -/
def trCol (high low close : List (Option ℚ)) : List (Option ℚ) :=
  idxMap high.length (fun t =>
    let pc := if 1 ≤ t then cell close (t - 1) else none
    omax (omax (osub (cell high t) (cell low t)) (oabs (osub (cell high t) pc)))
      (oabs (osub (cell low t) pc)))

/-- Raw +DM: `(high - high.shift()).clip(lower=0)`. -/
def dmPlusRaw (high : List (Option ℚ)) : List (Option ℚ) := clipLo0 (diffL high)

/-- Raw −DM: `(low.shift() - low).clip(lower=0)`. -/
def dmMinusRaw (low : List (Option ℚ)) : List (Option ℚ) :=
  idxMap low.length (fun t =>
    if 1 ≤ t then (osub (cell low (t - 1)) (cell low t)).map (fun x => max x 0) else none)

/-- Zeroed +DM: `dm_plus.where(dm_plus > dm_minus, 0)` — the comparator is the
CURRENT bar's raw −DM. -/
def dmPlusZ (high low : List (Option ℚ)) : List (Option ℚ) :=
  idxMap high.length (fun t =>
    if ogtB (cell (dmPlusRaw high) t) (cell (dmMinusRaw low) t) then
      cell (dmPlusRaw high) t
    else some 0)

/-- Zeroed −DM: `dm_minus.where(dm_minus > dm_plus.shift().fillna(0), 0)` —
the comparator is the PREVIOUS bar's already-zeroed +DM (0 at the start). -/
def dmMinusZ (high low : List (Option ℚ)) : List (Option ℚ) :=
  idxMap low.length (fun t =>
    if ogtB (cell (dmMinusRaw low) t)
        (some (if 1 ≤ t then (cell (dmPlusZ high low) (t - 1)).getD 0 else 0)) then
      cell (dmMinusRaw low) t
    else some 0)

/-- Smoothed true range: `tr.ewm(span=n, adjust=False).mean()`. -/
def atrCol (high low close : List (Option ℚ)) : List (Option ℚ) :=
  ewmNoAdj (spanAlpha adx_period) (trCol high low close)

/-- DI+: `100 * smoothed(+DM) / atr`. -/
def diPosCol (high low close : List (Option ℚ)) : List (Option ℚ) :=
  zipCells (fun a b => odiv (omul (some 100) a) b)
    (ewmNoAdj (spanAlpha adx_period) (dmPlusZ high low)) (atrCol high low close)

/-- DI−: `100 * smoothed(−DM) / atr`. -/
def diNegCol (high low close : List (Option ℚ)) : List (Option ℚ) :=
  zipCells (fun a b => odiv (omul (some 100) a) b)
    (ewmNoAdj (spanAlpha adx_period) (dmMinusZ high low)) (atrCol high low close)

/-- DX: `100 * |DI+ - DI-| / (DI+ + DI-).replace(0, nan)`. -/
def dxCol (high low close : List (Option ℚ)) : List (Option ℚ) :=
  idxMap high.length (fun t =>
    match cell (diPosCol high low close) t, cell (diNegCol high low close) t with
    | some p, some n => if p + n = 0 then none else some (100 * |p - n| / (p + n))
    | _, _ => none)

/-- ADX: `dx.ewm(span=n, adjust=False).mean()`. -/
def adxCol (high low close : List (Option ℚ)) : List (Option ℚ) :=
  ewmNoAdj (spanAlpha adx_period) (dxCol high low close)

/-- Bollinger middle band (`_bollinger`): `SMA(close, n)`. -/
def bollMidCol (close : List (Option ℚ)) : List (Option ℚ) := rollingMean boll_period close

/-- Bollinger band width term `rolling std` as `sqrtA` of the exact variance. -/
def bollBandCol (sqrtA : ℚ → ℚ) (close : List (Option ℚ)) : List (Option ℚ) :=
  (rollingVarS boll_period close).map (Option.map sqrtA)

/-- Bollinger upper band: `mid + std_mult * band`. -/
def bollUpperCol (sqrtA : ℚ → ℚ) (close : List (Option ℚ)) : List (Option ℚ) :=
  zipCells oadd (bollMidCol close) (scaleL boll_std (bollBandCol sqrtA close))

/-- Bollinger lower band: `mid - std_mult * band`. -/
def bollLowerCol (sqrtA : ℚ → ℚ) (close : List (Option ℚ)) : List (Option ℚ) :=
  zipCells osub (bollMidCol close) (scaleL boll_std (bollBandCol sqrtA close))

/-- Bollinger width: `(upper - lower) / mid`. -/
def bollWidthCol (sqrtA : ℚ → ℚ) (close : List (Option ℚ)) : List (Option ℚ) :=
  zipCells odiv (zipCells osub (bollUpperCol sqrtA close) (bollLowerCol sqrtA close))
    (bollMidCol close)

/-- Bollinger %B: `(close - lower) / (upper - lower)`. -/
def bollPctBCol (sqrtA : ℚ → ℚ) (close : List (Option ℚ)) : List (Option ℚ) :=
  zipCells odiv (zipCells osub close (bollLowerCol sqrtA close))
    (zipCells osub (bollUpperCol sqrtA close) (bollLowerCol sqrtA close))

/-- Volume MA for one period (`_vol_ma`). -/
def volMaCol (p : ℕ) (volume : List (Option ℚ)) : List (Option ℚ) := rollingMean p volume

/-- VROC (`_vroc`): `volume.pct_change(n) * 100`. -/
def vrocCol (volume : List (Option ℚ)) : List (Option ℚ) :=
  scaleL 100 (pctChange vroc_period volume)

/-- Sign of the close diff with NaN filled as 0 (`np.sign(diff).fillna(0)`). -/
def obvDir (close : List (Option ℚ)) (t : ℕ) : ℚ :=
  if 1 ≤ t then
    match osub (cell close t) (cell close (t - 1)) with
    | some d => if 0 < d then 1 else if d < 0 then -1 else 0
    | none => 0
  else 0

/-- Running skip-NaN sum of `direction * volume` over cells `0..t`. -/
def obvAcc (close volume : List (Option ℚ)) (t : ℕ) : ℚ :=
  ((List.range (t + 1)).map (fun i =>
    ((cell volume i).map (fun v => obvDir close i * v)).getD 0)).sum

/-- OBV (`_obv`): `(direction * volume).cumsum()`; a cell is defined exactly
when that row's product is defined, and carries the skip-NaN running sum. -/
def obvCol (close volume : List (Option ℚ)) : List (Option ℚ) :=
  idxMap close.length (fun t =>
    if (cell volume t).isSome then some (obvAcc close volume t) else none)

/-- Typical price (`_mfi`): `(high + low + close) / 3`. -/
def typCol (high low close : List (Option ℚ)) : List (Option ℚ) :=
  idxMap high.length (fun t =>
    match cell high t, cell low t, cell close t with
    | some a, some b, some c => some ((a + b + c) / 3)
    | _, _, _ => none)

/-- Raw money flow: `typical * volume`. -/
def rawMFCol (high low close volume : List (Option ℚ)) : List (Option ℚ) :=
  zipCells omul (typCol high low close) volume

/-- Positive money flow: `raw_mf.where(typical > typical.shift(), 0)`. -/
def posMFCol (high low close volume : List (Option ℚ)) : List (Option ℚ) :=
  idxMap high.length (fun t =>
    if ogtB (cell (typCol high low close) t)
        (if 1 ≤ t then cell (typCol high low close) (t - 1) else none) then
      cell (rawMFCol high low close volume) t
    else some 0)

/-- Negative money flow: `raw_mf.where(typical < typical.shift(), 0)`. -/
def negMFCol (high low close volume : List (Option ℚ)) : List (Option ℚ) :=
  idxMap high.length (fun t =>
    if oltB (cell (typCol high low close) t)
        (if 1 ≤ t then cell (typCol high low close) (t - 1) else none) then
      cell (rawMFCol high low close volume) t
    else some 0)

/-- Rolling positive-flow sum of MFI. -/
def mfiPosSum (high low close volume : List (Option ℚ)) : List (Option ℚ) :=
  rollingSum mfi_period (posMFCol high low close volume)

/-- Rolling negative-flow sum of MFI. -/
def mfiNegSum (high low close volume : List (Option ℚ)) : List (Option ℚ) :=
  rollingSum mfi_period (negMFCol high low close volume)

/-- MFI (`_mfi`): `100 - 100 / (1 + mfr)` with
`mfr = pos_sum / neg_sum.replace(0, nan)`. -/
def mfiCol (high low close volume : List (Option ℚ)) : List (Option ℚ) :=
  idxMap high.length (fun t =>
    match cell (mfiPosSum high low close volume) t, cell (mfiNegSum high low close volume) t with
    | some p, some n => if n = 0 then none else some (100 - 100 / (1 + p / n))
    | _, _ => none)

end Indicators

-- ── Data frames and the indicator pipeline entry point ──────────────────

/-- Raw input frame: the `date` index plus named data columns (a missing
required column models a pandas `KeyError`). -/
structure RawFrame where
  dates : List ℤ
  cols : List (String × List (Option ℚ))
deriving DecidableEq

/-- Well-formedness of a pandas frame: every column has the index length. -/
def RawFrame.WF (df : RawFrame) : Prop :=
  ∀ c ∈ df.cols, c.2.length = df.dates.length

instance (df : RawFrame) : Decidable df.WF := by
  unfold RawFrame.WF; infer_instance

/-- Enriched frame produced by `compute_all`: the input bars plus every
indicator column.  (Pass-through of input columns other than
date/high/low/close/volume is not modelled; no consumer reads them.) -/
structure EnrichedFrame where
  nrows : ℕ
  dates : List ℤ
  high : List (Option ℚ)
  low : List (Option ℚ)
  close : List (Option ℚ)
  volume : List (Option ℚ)
  MA5 : List (Option ℚ)
  MA10 : List (Option ℚ)
  MA20 : List (Option ℚ)
  MA60 : List (Option ℚ)
  ROC : List (Option ℚ)
  MOM : List (Option ℚ)
  RSI : List (Option ℚ)
  MACD : List (Option ℚ)
  MACD_signal : List (Option ℚ)
  MACD_hist : List (Option ℚ)
  ADX : List (Option ℚ)
  DI_pos : List (Option ℚ)
  DI_neg : List (Option ℚ)
  BOLL_mid : List (Option ℚ)
  BOLL_upper : List (Option ℚ)
  BOLL_lower : List (Option ℚ)
  BOLL_width : List (Option ℚ)
  BOLL_pctB : List (Option ℚ)
  VOL_MA5 : List (Option ℚ)
  VOL_MA10 : List (Option ℚ)
  VOL_MA20 : List (Option ℚ)
  VROC : List (Option ℚ)
  OBV : List (Option ℚ)
  MFI : List (Option ℚ)
deriving DecidableEq

/-- Indicator pipeline `compute_all(df)`.  A missing required column raises
`KeyError` at its first access (access order in the source: `close` in
`_ma`, then `high` and `low` in `_adx`, then `volume` in `_vol_ma`);
dates are never inspected.  `sqrtA` abstracts the float square root used
by `rolling.std()`. -/
def compute_all (sqrtA : ℚ → ℚ) (raw : RawFrame) : Except String EnrichedFrame :=
  match raw.cols.lookup ("close") with
  | none => Except.error ("KeyError: close")
  | some close =>
    match raw.cols.lookup ("high") with
    | none => Except.error ("KeyError: high")
    | some high =>
      match raw.cols.lookup ("low") with
      | none => Except.error ("KeyError: low")
      | some low =>
        match raw.cols.lookup ("volume") with
        | none => Except.error ("KeyError: volume")
        | some volume =>
          Except.ok
            { nrows := raw.dates.length
              dates := raw.dates
              high := high
              low := low
              close := close
              volume := volume
              MA5 := Indicators.maCol 5 close
              MA10 := Indicators.maCol 10 close
              MA20 := Indicators.maCol 20 close
              MA60 := Indicators.maCol 60 close
              ROC := Indicators.rocCol close
              MOM := Indicators.momCol close
              RSI := Indicators.rsiCol close
              MACD := Indicators.macdCol close
              MACD_signal := Indicators.macdSignalCol close
              MACD_hist := Indicators.macdHistCol close
              ADX := Indicators.adxCol high low close
              DI_pos := Indicators.diPosCol high low close
              DI_neg := Indicators.diNegCol high low close
              BOLL_mid := Indicators.bollMidCol close
              BOLL_upper := Indicators.bollUpperCol sqrtA close
              BOLL_lower := Indicators.bollLowerCol sqrtA close
              BOLL_width := Indicators.bollWidthCol sqrtA close
              BOLL_pctB := Indicators.bollPctBCol sqrtA close
              VOL_MA5 := Indicators.volMaCol 5 volume
              VOL_MA10 := Indicators.volMaCol 10 volume
              VOL_MA20 := Indicators.volMaCol 20 volume
              VROC := Indicators.vrocCol volume
              OBV := Indicators.obvCol close volume
              MFI := Indicators.mfiCol high low close volume }

-- ── Signal fusion engine (analysis/signals.py) ──────────────────────────

/-- Cell of a column at the frame's last row (`df.iloc[-1][col]`). -/
def rcell (df : EnrichedFrame) (col : List (Option ℚ)) : Option ℚ :=
  cell col (df.nrows - 1)

/-- Cell of a column at the frame's second-to-last row (`df.iloc[-2][col]`). -/
def pcell (df : EnrichedFrame) (col : List (Option ℚ)) : Option ℚ :=
  cell col (df.nrows - 2)

/-- The `_label` helper rendering an MA-alignment score as text. -/
def labelTxt (score : ℚ) : String :=
  if score ≥ 0.6 then ("强烈看多")
  else if score > 0 then ("看多")
  else if score = 0 then ("中性")
  else if score > -0.6 then ("看空")
  else ("强烈看空")

/-- The `_score_to_signal` helper: fixed ordinal thresholds on the score. -/
def score_to_signal (score : ℚ) : String :=
  if score ≥ 0.6 then ("强烈买入")
  else if score ≥ 0.2 then ("买入")
  else if score > -0.2 then ("观望")
  else if score > -0.6 then ("卖出")
  else ("强烈卖出")

/-- Per-period MA alignment entries: for each configured MA with a defined
last value, +1 / −1 / 0 by the close-vs-MA comparison (NaN compares false,
so an undefined close contributes 0). -/
def ma_signals (df : EnrichedFrame) : List ℚ :=
  [df.MA5, df.MA10, df.MA20, df.MA60].filterMap (fun col =>
    match rcell df col with
    | none => none
    | some m =>
      some (if ogtB (rcell df df.close) (some m) then (1 : ℚ)
        else if oltB (rcell df df.close) (some m) then -1 else 0))

/-- MA-alignment vote: mean of `ma_signals` when nonempty. -/
def maVote (df : EnrichedFrame) : Option ℚ :=
  if ma_signals df = [] then none else some (meanQ (ma_signals df))

/-- MA5/MA20 crossover vote: golden cross +1, death cross −1, else none. -/
def crossVote (df : EnrichedFrame) : Option ℚ :=
  if (rcell df df.MA5).isSome && (pcell df df.MA5).isSome &&
      (rcell df df.MA20).isSome && (pcell df df.MA20).isSome then
    if oleB (pcell df df.MA5) (pcell df df.MA20) &&
        ogtB (rcell df df.MA5) (rcell df df.MA20) then some 1
    else if ogeB (pcell df df.MA5) (pcell df df.MA20) &&
        oltB (rcell df df.MA5) (rcell df df.MA20) then some (-1)
    else none
  else none

/-- RSI vote: overbought −1, oversold +1, else ±0.5 by the 50 line. -/
def rsiVote (df : EnrichedFrame) : Option ℚ :=
  match rcell df df.RSI with
  | none => none
  | some r =>
    some (if r ≥ rsi_overbought then -1
      else if r ≤ rsi_oversold then 1
      else if r > 50 then 0.5 else -0.5)

/-- MACD vote: histogram sign flip ±1, else regime ±0.5 by histogram sign
(the guard tests `row["MACD"]` and `prev["MACD_hist"]`). -/
def macdVote (df : EnrichedFrame) : Option ℚ :=
  if (rcell df df.MACD).isSome && (pcell df df.MACD_hist).isSome then
    some (if oltB (pcell df df.MACD_hist) (some 0) && ogeB (rcell df df.MACD_hist) (some 0) then 1
      else if ogtB (pcell df df.MACD_hist) (some 0) && oleB (rcell df df.MACD_hist) (some 0) then -1
      else if ogtB (rcell df df.MACD_hist) (some 0) then 0.5 else -0.5)
  else none

/-- ADX vote: ±0.8 by DI+ vs DI− in a strong trend, else 0. -/
def adxVote (df : EnrichedFrame) : Option ℚ :=
  match rcell df df.ADX with
  | none => none
  | some a =>
    some (if a ≥ adx_strong then
        (if ogtB (rcell df df.DI_pos) (rcell df df.DI_neg) then 0.8 else -0.8)
      else 0)

/-- Bollinger %B vote. -/
def bollVote (df : EnrichedFrame) : Option ℚ :=
  match rcell df df.BOLL_pctB with
  | none => none
  | some b =>
    some (if b > 1 then -1
      else if b < 0 then 1
      else if b > 0.8 then -0.5
      else if b < 0.2 then 0.5 else 0)

/-- ROC vote: ±0.5 by sign, 0 at zero. -/
def rocVote (df : EnrichedFrame) : Option ℚ :=
  match rcell df df.ROC with
  | none => none
  | some r => some (if r > 0 then 0.5 else if r < 0 then -0.5 else 0)

/-- Momentum vote: ±0.5 by sign, 0 at zero. -/
def momVote (df : EnrichedFrame) : Option ℚ :=
  match rcell df df.MOM with
  | none => none
  | some m => some (if m > 0 then 0.5 else if m < 0 then -0.5 else 0)

/-- OBV-slope vote: requires `len(df) >= 5`; slope is
`OBV.iloc[-1] - OBV.iloc[-5]`; ±0.5 by its sign, no vote when the slope
is 0 or undefined. -/
def obvVote (df : EnrichedFrame) : Option ℚ :=
  if 5 ≤ df.nrows then
    let slope := osub (cell df.OBV (df.OBV.length - 1)) (cell df.OBV (df.OBV.length - 5))
    if ogtB slope (some 0) then some 0.5
    else if oltB slope (some 0) then some (-0.5)
    else none
  else none

/-- MFI vote: ≥80 → −0.8, ≤20 → +0.8, else ±0.3 by the 50 line. -/
def mfiVote (df : EnrichedFrame) : Option ℚ :=
  match rcell df df.MFI with
  | none => none
  | some m =>
    some (if m ≥ 80 then -0.8
      else if m ≤ 20 then 0.8
      else if m > 50 then 0.3 else -0.3)

/-- All emitted votes, in the source's append order (the volume sub-signals
`obv`/`mfi` are extended last); a sub-signal whose guard fails contributes
nothing. -/
def votesOf (df : EnrichedFrame) : List ℚ :=
  [maVote df, crossVote df, rsiVote df, macdVote df, adxVote df, bollVote df,
    rocVote df, momVote df, obvVote df, mfiVote df].filterMap id

/-- Crossover detail text. -/
def crossTxt (df : EnrichedFrame) : String :=
  if (rcell df df.MA5).isSome && (pcell df df.MA5).isSome &&
      (rcell df df.MA20).isSome && (pcell df df.MA20).isSome then
    if oleB (pcell df df.MA5) (pcell df df.MA20) &&
        ogtB (rcell df df.MA5) (rcell df df.MA20) then ("黄金交叉(多头)")
    else if ogeB (pcell df df.MA5) (pcell df df.MA20) &&
        oltB (rcell df df.MA5) (rcell df df.MA20) then ("死亡交叉(空头)")
    else ("无")
  else ("无")

/-- Details mapping in insertion order.  Numeric interpolations of the
source's f-strings are elided; only the chosen branch text is kept. -/
def detailsOf (df : EnrichedFrame) : List (String × String) :=
  (if ma_signals df = [] then [] else [("均线", labelTxt (meanQ (ma_signals df)))])
  ++ [("均线交叉", crossTxt df)]
  ++ (match rcell df df.RSI with
    | none => []
    | some r => [("RSI", if r ≥ rsi_overbought then ("超买")
        else if r ≤ rsi_oversold then ("超卖") else ("中性"))])
  ++ (if (rcell df df.MACD).isSome && (pcell df df.MACD_hist).isSome then
      [("MACD", if oltB (pcell df df.MACD_hist) (some 0) && ogeB (rcell df df.MACD_hist) (some 0) then
          "柱状线由负转正(金叉)"
        else if ogtB (pcell df df.MACD_hist) (some 0) && oleB (rcell df df.MACD_hist) (some 0) then
          "柱状线由正转负(死叉)"
        else if ogtB (rcell df df.MACD_hist) (some 0) then ("多头区间") else ("空头区间"))]
    else [])
  ++ (match rcell df df.ADX with
    | none => []
    | some a => [("ADX", if a ≥ adx_strong then
        (if ogtB (rcell df df.DI_pos) (rcell df df.DI_neg) then ("强趋势上行") else ("强趋势下行"))
      else ("趋势较弱"))])
  ++ (match rcell df df.BOLL_pctB with
    | none => []
    | some b => [("布林带", if b > 1 then ("价格突破上轨(超买区域)")
        else if b < 0 then ("价格突破下轨(超卖区域)")
        else if b > 0.8 then ("接近上轨")
        else if b < 0.2 then ("接近下轨") else ("布林带中部"))])
  ++ (match rcell df df.ROC with
    | none => []
    | some r => [("ROC", if r > 0 then ("正向动能") else ("负向动能"))])
  ++ (match rcell df df.MOM with
    | none => []
    | some m => [("Momentum", if m > 0 then ("正") else ("负"))])
  ++ (if 5 ≤ df.nrows then
      (let slope := osub (cell df.OBV (df.OBV.length - 1)) (cell df.OBV (df.OBV.length - 5))
      if ogtB slope (some 0) then [("OBV", "量能上升(多头确认)")]
      else if oltB slope (some 0) then [("OBV", "量能下降(空头确认)")]
      else [("OBV", "量能持平")])
    else [])
  ++ (match rcell df df.MFI with
    | none => []
    | some m => [("MFI", if m ≥ 80 then ("超买资金流出")
        else if m ≤ 20 then ("超卖资金流入")
        else if m > 50 then ("资金偏多") else ("资金偏空"))])
  ++ (match rcell df df.VROC with
    | none => []
    | some _ => [("VROC", "成交量变化率")])
  ++ (match rcell df df.VOL_MA5 with
    | none => []
    | some v => [("量均线MA5", if ogtB (rcell df df.volume) (some (v * 1.5)) then ("放量")
        else if oltB (rcell df df.volume) (some (v * 0.5)) then ("缩量") else ("正常量"))])
  ++ (match rcell df df.VOL_MA10 with
    | none => []
    | some v => [("量均线MA10", if ogtB (rcell df df.volume) (some (v * 1.5)) then ("放量")
        else if oltB (rcell df df.volume) (some (v * 0.5)) then ("缩量") else ("正常量"))])
  ++ (match rcell df df.VOL_MA20 with
    | none => []
    | some v => [("量均线MA20", if ogtB (rcell df df.volume) (some (v * 1.5)) then ("放量")
        else if oltB (rcell df df.volume) (some (v * 0.5)) then ("缩量") else ("正常量"))])

/-- Latest-snapshot mapping; display formatting is elided, `none` stands for
the `"N/A"` fallback.  `vol` is the already-checked last volume. -/
def latestOf (df : EnrichedFrame) (vol : ℚ) : List (String × Option ℚ) :=
  [("收盘价", (rcell df df.close).map (pyRound 3)),
   ("涨跌幅", if (pcell df df.close).isSome then
       omul (osub (odiv (rcell df df.close) (pcell df df.close)) (some 1)) (some 100)
     else none),
   ("成交量", some ((pyInt vol : ℤ) : ℚ)),
   ("RSI", (rcell df df.RSI).map (pyRound 1)),
   ("MACD柱", (rcell df df.MACD_hist).map (pyRound 4)),
   ("ADX", (rcell df df.ADX).map (pyRound 1)),
   ("MFI", (rcell df df.MFI).map (pyRound 1)),
   ("OBV", (rcell df df.OBV).map (fun v => ((pyInt v : ℤ) : ℚ)))]

/-- Reference price levels; absent components are `none` (rendered `null`). -/
structure PriceLevels where
  close : Option ℚ
  boll_upper : Option ℚ
  boll_lower : Option ℚ
  ma20 : Option ℚ
  ma60 : Option ℚ
deriving DecidableEq

/-- Price levels of the last row. -/
def priceLevelsOf (df : EnrichedFrame) : PriceLevels :=
  { close := (rcell df df.close).map (pyRound 3)
    boll_upper := (rcell df df.BOLL_upper).map (pyRound 3)
    boll_lower := (rcell df df.BOLL_lower).map (pyRound 3)
    ma20 := (rcell df df.MA20).map (pyRound 3)
    ma60 := (rcell df df.MA60).map (pyRound 3) }

/-- Result dictionary of `generate_signals`; the sentinel result carries no
`price_levels` key, modelled by `price_levels = none`. -/
structure SignalResult where
  signal : String
  score : ℚ
  details : List (String × String)
  latest : List (String × Option ℚ)
  price_levels : Option PriceLevels
deriving DecidableEq

/-- Signal fusion `generate_signals(df)`.  With fewer than 2 rows it returns
the fixed sentinel.  Otherwise it aggregates the emitted votes; the score
key is `round(score, 3)` and the label is computed from the unrounded
score.  `int(row["volume"])` raises `ValueError` when the last volume is
NaN — the only exception this path can raise. -/
def generate_signals (df : EnrichedFrame) : Except String SignalResult :=
  if df.nrows < 2 then
    Except.ok { signal := "数据不足", score := 0, details := [], latest := [], price_levels := none }
  else
    match rcell df df.volume with
    | none => Except.error ("ValueError: cannot convert NaN to int")
    | some vol =>
      let votes := votesOf df
      let score : ℚ := if votes = [] then 0 else meanQ votes
      Except.ok
        { signal := score_to_signal score
          score := pyRound 3 score
          details := detailsOf df
          latest := latestOf df vol
          price_levels := some (priceLevelsOf df) }

-- ── Anomaly detector (analysis/anomaly.py) ──────────────────────────────

/-- Default anomaly threshold (5%). -/
def ANOMALY_THRESHOLD : ℚ := 0.05

/-- One raw bar as seen by `check_anomaly` (only date and close are read). -/
structure PriceRow where
  date : String
  close : Option ℚ
deriving DecidableEq

/-- Anomaly record.  The `news` list returned by the external
`fetch_news` collaborator is opaque I/O and is not modelled. -/
structure AnomalyRecord where
  symbol : String
  name : String
  market : String
  date : String
  close : Option ℚ
  prev_close : ℚ
  change_pct : Option ℚ
  direction : String
deriving DecidableEq

/-- Previous close of a series (`df.iloc[-2]["close"]`). -/
def prevCloseOf (rows : List PriceRow) : Option ℚ :=
  ((rows.get? (rows.length - 2)).map PriceRow.close).join

/-- Latest close of a series (`df.iloc[-1]["close"]`). -/
def lastCloseOf (rows : List PriceRow) : Option ℚ :=
  ((rows.get? (rows.length - 1)).map PriceRow.close).join

/-- Latest date of a series, as the record stores it (`str(date)[:10]`). -/
def lastDateOf (rows : List PriceRow) : String :=
  (((rows.get? (rows.length - 1)).map PriceRow.date).getD ("")).take 10

/-- Relative change `(last - prev) / prev` of the last two closes. -/
def anomalyChange (rows : List PriceRow) : Option ℚ :=
  odiv (osub (lastCloseOf rows) (prevCloseOf rows)) (prevCloseOf rows)

/-- Anomaly detector `check_anomaly`: `None` for fewer than 2 bars, an
undefined or zero previous close, or a relative move below the threshold;
otherwise the anomaly record (direction 暴涨 = surge / 暴跌 = plunge). -/
def check_anomaly (rows : List PriceRow) (symbol market name : String)
    (threshold : ℚ) : Option AnomalyRecord :=
  if rows.length < 2 then none
  else
    match prevCloseOf rows with
    | none => none
    | some pc =>
      if pc = 0 then none
      else
        let change := anomalyChange rows
        if oltB (oabs change) (some threshold) then none
        else
          some { symbol := symbol
                 name := name
                 market := market
                 date := lastDateOf rows
                 close := (lastCloseOf rows).map (pyRound 3)
                 prev_close := pyRound 3 pc
                 change_pct := change.map (fun c => pyRound 2 (c * 100))
                 direction := if ogtB change (some 0) then ("暴涨") else ("暴跌") }

-- ── Auxiliary definitions used by the verification statements ───────────

/-- Whether an `Except` computation succeeded (did not raise). -/
def isOkE {α : Type} (e : Except String α) : Bool :=
  match e with
  | Except.ok _ => true
  | Except.error _ => false

/-- Boolean nonnegativity of an optional cell (`none` counts as true). -/
def onn (o : Option ℚ) : Bool :=
  match o with
  | none => true
  | some x => decide (0 ≤ x)

/-- All 29 per-row lists of an enriched frame have exactly `nrows` entries. -/
def EnrichedFrame.allColsLen (e : EnrichedFrame) : Prop :=
  e.dates.length = e.nrows ∧ e.high.length = e.nrows ∧ e.low.length = e.nrows ∧
  e.close.length = e.nrows ∧ e.volume.length = e.nrows ∧
  e.MA5.length = e.nrows ∧ e.MA10.length = e.nrows ∧ e.MA20.length = e.nrows ∧
  e.MA60.length = e.nrows ∧ e.ROC.length = e.nrows ∧ e.MOM.length = e.nrows ∧
  e.RSI.length = e.nrows ∧ e.MACD.length = e.nrows ∧ e.MACD_signal.length = e.nrows ∧
  e.MACD_hist.length = e.nrows ∧ e.ADX.length = e.nrows ∧ e.DI_pos.length = e.nrows ∧
  e.DI_neg.length = e.nrows ∧ e.BOLL_mid.length = e.nrows ∧ e.BOLL_upper.length = e.nrows ∧
  e.BOLL_lower.length = e.nrows ∧ e.BOLL_width.length = e.nrows ∧
  e.BOLL_pctB.length = e.nrows ∧ e.VOL_MA5.length = e.nrows ∧
  e.VOL_MA10.length = e.nrows ∧ e.VOL_MA20.length = e.nrows ∧
  e.VROC.length = e.nrows ∧ e.OBV.length = e.nrows ∧ e.MFI.length = e.nrows

/-- Enriched frame of `n` rows with every cell undefined. -/
def blankFrame (n : ℕ) : EnrichedFrame :=
  { nrows := n
    dates := (List.range n).map (fun i => (i : ℤ))
    high := List.replicate n none
    low := List.replicate n none
    close := List.replicate n none
    volume := List.replicate n none
    MA5 := List.replicate n none
    MA10 := List.replicate n none
    MA20 := List.replicate n none
    MA60 := List.replicate n none
    ROC := List.replicate n none
    MOM := List.replicate n none
    RSI := List.replicate n none
    MACD := List.replicate n none
    MACD_signal := List.replicate n none
    MACD_hist := List.replicate n none
    ADX := List.replicate n none
    DI_pos := List.replicate n none
    DI_neg := List.replicate n none
    BOLL_mid := List.replicate n none
    BOLL_upper := List.replicate n none
    BOLL_lower := List.replicate n none
    BOLL_width := List.replicate n none
    BOLL_pctB := List.replicate n none
    VOL_MA5 := List.replicate n none
    VOL_MA10 := List.replicate n none
    VOL_MA20 := List.replicate n none
    VROC := List.replicate n none
    OBV := List.replicate n none
    MFI := List.replicate n none }

/-- Two-row enriched frame whose only defined indicators at the last row are
RSI = 60, ROC = 1 and MOM = 0: exactly three sub-signals emit votes. -/
def exC1 : EnrichedFrame :=
  { blankFrame 2 with
    close := [some 100, some 100]
    volume := [some 1, some 1]
    RSI := [none, some 60]
    ROC := [none, some 1]
    MOM := [none, some 0] }

/-- Highs of the ADX counterexample bars. -/
def exH : List (Option ℚ) := [some 10, some 9, some 11]

/-- Lows of the ADX counterexample bars. -/
def exL : List (Option ℚ) := [some 8, some 3, some 2]

/-- Six-row frame whose OBV column is rising over 5 intervals yet falling
over the last 4 intervals. -/
def exC4 : EnrichedFrame :=
  { blankFrame 6 with OBV := [some 0, some 10, some 9, some 9, some 9, some 5] }

/-- Two-row frame with defined close and volume, all indicators undefined. -/
def exC10 : EnrichedFrame :=
  { blankFrame 2 with close := [some 1, some 2], volume := [some 3, some 4] }

/-- Raw frame with a duplicated (hence non-monotonic) date index. -/
def rawDup : RawFrame :=
  { dates := [7, 7]
    cols := [("close", [some 1, some 1]), ("high", [some 2, some 2]),
             ("low", [some 1, some 1]), ("volume", [some 3, some 3])] }

/-- Raw frame with a single bar. -/
def raw1 : RawFrame :=
  { dates := [3]
    cols := [("close", [some 5]), ("high", [some 6]),
             ("low", [some 4]), ("volume", [some 7])] }

/-- Raw frame missing the required `close` column. -/
def rawMissing : RawFrame :=
  { dates := [1]
    cols := [("high", [some 1]), ("low", [some 1]), ("volume", [some 1])] }

/-- Well-formed two-bar raw frame. -/
def rawC8 : RawFrame :=
  { dates := [1, 2]
    cols := [("close", [some 10, some 11]), ("high", [some 12, some 13]),
             ("low", [some 9, some 10]), ("volume", [some 100, some 200])] }

/-- Enriched result of the pipeline on `rawC8`. -/
def c8res : EnrichedFrame :=
  match compute_all (fun q => q) rawC8 with
  | Except.ok e => e
  | Except.error _ => blankFrame 0

/-- Fusion result on `exC10`. -/
def c10res : SignalResult :=
  match generate_signals exC10 with
  | Except.ok r => r
  | Except.error _ => { signal := "", score := 0, details := [], latest := [], price_levels := none }

/-- Degenerate 15-bar series (high = low = close) whose typical price goes
negative: closes 0 × 13, then 1, then −2. -/
def c9c : List (Option ℚ) :=
  [some 0, some 0, some 0, some 0, some 0, some 0, some 0, some 0, some 0, some 0,
   some 0, some 0, some 0, some 1, some (-2)]

/-- Unit volumes for the MFI examples. -/
def c9v : List (Option ℚ) :=
  [some 1, some 1, some 1, some 1, some 1, some 1, some 1, some 1, some 1, some 1,
   some 1, some 1, some 1, some 1, some 1]

/-- Alternating 15-bar close series 10, 11, 10, …, used to evaluate RSI. -/
def c9rc : List (Option ℚ) :=
  [some 10, some 11, some 10, some 11, some 10, some 11, some 10, some 11,
   some 10, some 11, some 10, some 11, some 10, some 11, some 10]

/-- Nonnegative 15-bar series (high = low = close): 2 × 13, then 3, then 1. -/
def c9mh : List (Option ℚ) :=
  [some 2, some 2, some 2, some 2, some 2, some 2, some 2, some 2, some 2, some 2,
   some 2, some 2, some 2, some 3, some 1]

/-- Two-bar anomaly series moving from 100 to 106 (+6%). -/
def rows106 : List PriceRow :=
  [{ date := "2024-01-01", close := some 100 }, { date := "2024-01-02", close := some 106 }]

/-- Two-bar anomaly series moving from 100 to 103 (+3%). -/
def rows103 : List PriceRow :=
  [{ date := "2024-01-01", close := some 100 }, { date := "2024-01-02", close := some 103 }]

/-- Two-bar anomaly series whose previous close is 0. -/
def rowsPrev0 : List PriceRow :=
  [{ date := "2024-01-01", close := some 0 }, { date := "2024-01-02", close := some 50 }]

-- ── Generic evaluation and length lemmas ────────────────────────────────

theorem cell_idxMap (n : ℕ) (f : ℕ → Option ℚ) (t : ℕ) :
    cell (idxMap n f) t = if t < n then f t else none := by
  rcases Nat.lt_or_ge t n with h | h
  · rw [if_pos h, cell, idxMap, List.getD_eq_getElem?_getD, List.getElem?_map,
      List.getElem?_range h]
    rfl
  · rw [if_neg (Nat.not_lt.mpr h), cell, idxMap, List.getD_eq_getElem?_getD,
      List.getElem?_eq_none (by simpa using h)]
    rfl

theorem cell_map (f : ℚ → ℚ) (xs : List (Option ℚ)) (t : ℕ) :
    cell (xs.map (Option.map f)) t = (cell xs t).map f := by
  rw [cell, cell, List.getD_eq_getElem?_getD, List.getD_eq_getElem?_getD, List.getElem?_map]
  cases xs[t]? <;> rfl

@[simp] theorem length_idxMap (n : ℕ) (f : ℕ → Option ℚ) : (idxMap n f).length = n := by
  simp [idxMap]

@[simp] theorem length_rollingMean (w : ℕ) (xs : List (Option ℚ)) :
    (rollingMean w xs).length = xs.length := by simp [rollingMean]

@[simp] theorem length_rollingSum (w : ℕ) (xs : List (Option ℚ)) :
    (rollingSum w xs).length = xs.length := by simp [rollingSum]

@[simp] theorem length_rollingVarS (w : ℕ) (xs : List (Option ℚ)) :
    (rollingVarS w xs).length = xs.length := by simp [rollingVarS]

@[simp] theorem length_diffL (xs : List (Option ℚ)) : (diffL xs).length = xs.length := by
  simp [diffL]

@[simp] theorem length_pctChange (n : ℕ) (xs : List (Option ℚ)) :
    (pctChange n xs).length = xs.length := by simp [pctChange]

@[simp] theorem length_clipLo0 (xs : List (Option ℚ)) : (clipLo0 xs).length = xs.length := by
  simp [clipLo0]

@[simp] theorem length_negClipHi0 (xs : List (Option ℚ)) :
    (negClipHi0 xs).length = xs.length := by simp [negClipHi0]

@[simp] theorem length_scaleL (c : ℚ) (xs : List (Option ℚ)) :
    (scaleL c xs).length = xs.length := by simp [scaleL]

@[simp] theorem length_zipCells (f : Option ℚ → Option ℚ → Option ℚ)
    (xs ys : List (Option ℚ)) : (zipCells f xs ys).length = xs.length := by simp [zipCells]

@[simp] theorem length_ewmAdj (a : ℚ) (mp : ℕ) (xs : List (Option ℚ)) :
    (ewmAdj a mp xs).length = xs.length := by simp [ewmAdj]

@[simp] theorem length_ewmNoAdj (a : ℚ) (xs : List (Option ℚ)) :
    (ewmNoAdj a xs).length = xs.length := by simp [ewmNoAdj]

namespace Indicators

@[simp] theorem length_maCol (p : ℕ) (c : List (Option ℚ)) :
    (maCol p c).length = c.length := by simp [maCol]

@[simp] theorem length_rocCol (c : List (Option ℚ)) : (rocCol c).length = c.length := by
  simp [rocCol]

@[simp] theorem length_momCol (c : List (Option ℚ)) : (momCol c).length = c.length := by
  simp [momCol]

@[simp] theorem length_rsiAvgGain (c : List (Option ℚ)) :
    (rsiAvgGain c).length = c.length := by simp [rsiAvgGain]

@[simp] theorem length_rsiAvgLoss (c : List (Option ℚ)) :
    (rsiAvgLoss c).length = c.length := by simp [rsiAvgLoss]

@[simp] theorem length_rsiCol (c : List (Option ℚ)) : (rsiCol c).length = c.length := by
  simp [rsiCol]

@[simp] theorem length_macdCol (c : List (Option ℚ)) : (macdCol c).length = c.length := by
  simp [macdCol]

@[simp] theorem length_macdSignalCol (c : List (Option ℚ)) :
    (macdSignalCol c).length = c.length := by simp [macdSignalCol]

@[simp] theorem length_macdHistCol (c : List (Option ℚ)) :
    (macdHistCol c).length = c.length := by simp [macdHistCol]

@[simp] theorem length_trCol (h l c : List (Option ℚ)) :
    (trCol h l c).length = h.length := by simp [trCol]

@[simp] theorem length_dmPlusRaw (h : List (Option ℚ)) :
    (dmPlusRaw h).length = h.length := by simp [dmPlusRaw]

@[simp] theorem length_dmMinusRaw (l : List (Option ℚ)) :
    (dmMinusRaw l).length = l.length := by simp [dmMinusRaw]

@[simp] theorem length_dmPlusZ (h l : List (Option ℚ)) :
    (dmPlusZ h l).length = h.length := by simp [dmPlusZ]

@[simp] theorem length_dmMinusZ (h l : List (Option ℚ)) :
    (dmMinusZ h l).length = l.length := by simp [dmMinusZ]

@[simp] theorem length_atrCol (h l c : List (Option ℚ)) :
    (atrCol h l c).length = h.length := by simp [atrCol]

@[simp] theorem length_diPosCol (h l c : List (Option ℚ)) :
    (diPosCol h l c).length = h.length := by simp [diPosCol]

@[simp] theorem length_diNegCol (h l c : List (Option ℚ)) :
    (diNegCol h l c).length = l.length := by simp [diNegCol]

@[simp] theorem length_dxCol (h l c : List (Option ℚ)) :
    (dxCol h l c).length = h.length := by simp [dxCol]

@[simp] theorem length_adxCol (h l c : List (Option ℚ)) :
    (adxCol h l c).length = h.length := by simp [adxCol]

@[simp] theorem length_bollMidCol (c : List (Option ℚ)) :
    (bollMidCol c).length = c.length := by simp [bollMidCol]

@[simp] theorem length_bollBandCol (s : ℚ → ℚ) (c : List (Option ℚ)) :
    (bollBandCol s c).length = c.length := by simp [bollBandCol]

@[simp] theorem length_bollUpperCol (s : ℚ → ℚ) (c : List (Option ℚ)) :
    (bollUpperCol s c).length = c.length := by simp [bollUpperCol]

@[simp] theorem length_bollLowerCol (s : ℚ → ℚ) (c : List (Option ℚ)) :
    (bollLowerCol s c).length = c.length := by simp [bollLowerCol]

@[simp] theorem length_bollWidthCol (s : ℚ → ℚ) (c : List (Option ℚ)) :
    (bollWidthCol s c).length = c.length := by simp [bollWidthCol]

@[simp] theorem length_bollPctBCol (s : ℚ → ℚ) (c : List (Option ℚ)) :
    (bollPctBCol s c).length = c.length := by simp [bollPctBCol]

@[simp] theorem length_volMaCol (p : ℕ) (v : List (Option ℚ)) :
    (volMaCol p v).length = v.length := by simp [volMaCol]

@[simp] theorem length_vrocCol (v : List (Option ℚ)) : (vrocCol v).length = v.length := by
  simp [vrocCol]

@[simp] theorem length_obvCol (c v : List (Option ℚ)) :
    (obvCol c v).length = c.length := by simp [obvCol]

@[simp] theorem length_typCol (h l c : List (Option ℚ)) :
    (typCol h l c).length = h.length := by simp [typCol]

@[simp] theorem length_posMFCol (h l c v : List (Option ℚ)) :
    (posMFCol h l c v).length = h.length := by simp [posMFCol]

@[simp] theorem length_negMFCol (h l c v : List (Option ℚ)) :
    (negMFCol h l c v).length = h.length := by simp [negMFCol]

@[simp] theorem length_mfiPosSum (h l c v : List (Option ℚ)) :
    (mfiPosSum h l c v).length = h.length := by simp [mfiPosSum]

@[simp] theorem length_mfiNegSum (h l c v : List (Option ℚ)) :
    (mfiNegSum h l c v).length = h.length := by simp [mfiNegSum]

@[simp] theorem length_mfiCol (h l c v : List (Option ℚ)) :
    (mfiCol h l c v).length = h.length := by simp [mfiCol]

end Indicators

-- ── C2: label thresholds ────────────────────────────────────────────────

/-- C2: the signal label is a pure deterministic function of the score via
fixed ordinal thresholds: score ≥ 0.6 "strong buy" (强烈买入), ≥ 0.2 "buy"
(买入), > −0.2 "hold" (观望), > −0.6 "sell" (卖出), else "strong sell"
(强烈卖出). -/
theorem C2_label_thresholds (s : ℚ) :
    ((0.6 : ℚ) ≤ s → score_to_signal s = "强烈买入")
    ∧ ((0.2 : ℚ) ≤ s ∧ s < 0.6 → score_to_signal s = "买入")
    ∧ (-(0.2 : ℚ) < s ∧ s < 0.2 → score_to_signal s = "观望")
    ∧ (-(0.6 : ℚ) < s ∧ s ≤ -0.2 → score_to_signal s = "卖出")
    ∧ (s ≤ -(0.6 : ℚ) → score_to_signal s = "强烈卖出") := by
  unfold score_to_signal
  refine ⟨fun h => ?_, fun h => ?_, fun h => ?_, fun h => ?_, fun h => ?_⟩
  · rw [if_pos h]
  · rw [if_neg (not_le.mpr h.2), if_pos h.1]
  · rw [if_neg (not_le.mpr (h.2.trans_le (by norm_num))),
      if_neg (not_le.mpr h.2), if_pos h.1]
  · rw [if_neg (not_le.mpr (h.2.trans_lt (by norm_num))),
      if_neg (not_le.mpr (h.2.trans_lt (by norm_num))),
      if_neg (not_lt.mpr h.2), if_pos h.1]
  · rw [if_neg (not_le.mpr (h.trans_lt (by norm_num))),
      if_neg (not_le.mpr (h.trans_lt (by norm_num))),
      if_neg (not_lt.mpr (h.trans (by norm_num))), if_neg (not_lt.mpr h)]

/-- Witness for C2 at concrete scores 1 and 0. -/
theorem C2_witness : score_to_signal 1 = "强烈买入" ∧ score_to_signal 0 = "观望" :=
  ⟨(C2_label_thresholds 1).1 (by norm_num),
   (C2_label_thresholds 0).2.2.1 (by norm_num)⟩

-- ── C6: insufficient-data sentinel ──────────────────────────────────────

/-- C6: on an empty or 1-row enriched series `generate_signals` returns the
fixed sentinel (label 数据不足 = "insufficient data", score 0, empty details
and snapshot) and never raises. -/
theorem C6_sentinel (df : EnrichedFrame) (h : df.nrows < 2) :
    generate_signals df =
      Except.ok
        { signal := "数据不足", score := 0, details := [], latest := [], price_levels := none } := by
  rw [generate_signals, if_pos h]

/-- Witness for C6 on a concrete one-row frame. -/
theorem C6_witness :
    generate_signals (blankFrame 1) =
      Except.ok
        { signal := "数据不足", score := 0, details := [], latest := [], price_levels := none } :=
  C6_sentinel (blankFrame 1) (by decide)

-- ── C3: the ADX ±DM mutual-exclusion comparators ────────────────────────

/-- C3 (amended): in the ADX computation, +DM is zeroed unless it exceeds the
CURRENT bar's raw −DM, while −DM is zeroed unless it exceeds the PREVIOUS
bar's already-zeroed +DM (0 at the first bar); the previous-bar comparison
applies to −DM, not to +DM as the claim states. -/
theorem C3_dm_exclusion_amended (high low : List (Option ℚ)) (t : ℕ)
    (hth : t < high.length) (htl : t < low.length) :
    (cell (Indicators.dmPlusZ high low) t =
      if ogtB (cell (Indicators.dmPlusRaw high) t) (cell (Indicators.dmMinusRaw low) t)
        then cell (Indicators.dmPlusRaw high) t else some 0)
    ∧ (cell (Indicators.dmMinusZ high low) t =
      if ogtB (cell (Indicators.dmMinusRaw low) t)
          (some (if 1 ≤ t then (cell (Indicators.dmPlusZ high low) (t - 1)).getD 0 else 0))
        then cell (Indicators.dmMinusRaw low) t else some 0)
    ∧ (∀ x : ℚ, cell (Indicators.dmPlusZ high low) t = some x → x ≠ 0 →
        ogtB (cell (Indicators.dmPlusRaw high) t) (cell (Indicators.dmMinusRaw low) t) = true)
    ∧ (∀ x : ℚ, cell (Indicators.dmMinusZ high low) t = some x → x ≠ 0 →
        ogtB (cell (Indicators.dmMinusRaw low) t)
          (some (if 1 ≤ t then (cell (Indicators.dmPlusZ high low) (t - 1)).getD 0 else 0))
          = true) := by
  have h1 : cell (Indicators.dmPlusZ high low) t =
      if ogtB (cell (Indicators.dmPlusRaw high) t) (cell (Indicators.dmMinusRaw low) t)
        then cell (Indicators.dmPlusRaw high) t else some 0 := by
    rw [Indicators.dmPlusZ, cell_idxMap, if_pos hth]
  have h2 : cell (Indicators.dmMinusZ high low) t =
      if ogtB (cell (Indicators.dmMinusRaw low) t)
          (some (if 1 ≤ t then (cell (Indicators.dmPlusZ high low) (t - 1)).getD 0 else 0))
        then cell (Indicators.dmMinusRaw low) t else some 0 := by
    rw [Indicators.dmMinusZ, cell_idxMap, if_pos htl]
  refine ⟨h1, h2, fun x hx hne => ?_, fun x hx hne => ?_⟩
  · cases hog : ogtB (cell (Indicators.dmPlusRaw high) t) (cell (Indicators.dmMinusRaw low) t) with
    | true => rfl
    | false =>
      rw [h1, if_neg (by simp [hog])] at hx
      exact absurd (Option.some_injective ℚ hx).symm hne
  · cases hog : ogtB (cell (Indicators.dmMinusRaw low) t)
        (some (if 1 ≤ t then (cell (Indicators.dmPlusZ high low) (t - 1)).getD 0 else 0)) with
    | true => rfl
    | false =>
      rw [h2, if_neg (by simp [hog])] at hx
      exact absurd (Option.some_injective ℚ hx).symm hne

/-- Counterexample for C3 as stated: on bars with highs 10, 9, 11 and lows
8, 3, 2, the bar-2 raw +DM is 2, the previous bar's −DM is 5 (raw and
zeroed), and 2 does not exceed 5 — yet +DM is kept, not zeroed, because the
code compares it with the current bar's −DM (1). -/
theorem C3_counterexample :
    Indicators.dmPlusZ exH exL = [some 0, some 0, some 2]
    ∧ Indicators.dmMinusZ exH exL = [some 0, some 5, some 1]
    ∧ cell (Indicators.dmMinusRaw exL) 1 = some 5
    ∧ cell (Indicators.dmMinusZ exH exL) 1 = some 5
    ∧ ¬((2 : ℚ) > 5) ∧ (2 : ℚ) ≠ 0 := by
  decide

/-- Witness for C3 at bar 2 of the example series. -/
theorem C3_witness :
    ogtB (cell (Indicators.dmPlusRaw exH) 2) (cell (Indicators.dmMinusRaw exL) 2) = true :=
  (C3_dm_exclusion_amended exH exL 2 (by decide) (by decide)).2.2.1 2
    (by decide) (by norm_num)

-- ── C4: the OBV-slope sub-signal ────────────────────────────────────────

/-- C4 (amended): the OBV sub-signal requires at least 5 rows and votes on
the sign of `OBV[t] − OBV[t−4]` (the difference between the last and the
fifth-from-last OBV values, `iloc[-1] - iloc[-5]`): +0.5 if positive, −0.5
if negative, and no vote when the slope is 0 or undefined or fewer than 5
rows exist. -/
theorem C4_obv_slope_amended (df : EnrichedFrame) (hWF : df.OBV.length = df.nrows) :
    (df.nrows < 5 → obvVote df = none)
    ∧ (5 ≤ df.nrows → obvVote df =
        (if ogtB (osub (cell df.OBV (df.nrows - 1)) (cell df.OBV (df.nrows - 5))) (some 0)
          then some 0.5
        else if oltB (osub (cell df.OBV (df.nrows - 1)) (cell df.OBV (df.nrows - 5))) (some 0)
          then some (-0.5)
        else none)) := by
  constructor
  · intro h
    rw [obvVote, if_neg (Nat.not_le.mpr h)]
  · intro h
    rw [obvVote, if_pos h, hWF]

/-- Counterexample for C4 as stated: on a 6-row frame with OBV values
0, 10, 9, 9, 9, 5 the claim's slope `OBV[t] − OBV[t−5]` is 5 − 0 = 5 > 0
(vote +0.5 predicted), but the code's slope is 5 − 10 < 0 and the emitted
vote is −0.5. -/
theorem C4_counterexample :
    obvVote exC4 = some (-(0.5 : ℚ))
    ∧ osub (cell exC4.OBV (exC4.nrows - 1)) (cell exC4.OBV (exC4.nrows - 6)) = some 5
    ∧ ogtB (some 5) (some 0) = true := by
  decide

/-- Witness for C4 on the concrete 6-row frame. -/
theorem C4_witness : obvVote exC4 = some (-(0.5 : ℚ)) := by
  have h := (C4_obv_slope_amended exC4 (by decide)).2 (by decide)
  rw [h]
  decide

-- ── C7: the anomaly detector ────────────────────────────────────────────

set_option maxRecDepth 8000 in
/-- C7: `check_anomaly` returns absent exactly when the series has fewer
than 2 bars, the previous close is undefined or 0, or the relative move is
below the threshold; with the default 5% threshold, closes 100 → 106 give
change_pct 6.0 and direction 暴涨 ("surge"), closes 100 → 103 give absent,
and a previous close of 0 gives absent. -/
theorem C7_check_anomaly_spec :
    (∀ (rows : List PriceRow) (sy mk nm : String) (t : ℚ),
      check_anomaly rows sy mk nm t = none ↔
        (rows.length < 2 ∨ prevCloseOf rows = none ∨ prevCloseOf rows = some 0 ∨
          oltB (oabs (anomalyChange rows)) (some t) = true))
    ∧ (check_anomaly rows106 ("S") ("US") ("N") ANOMALY_THRESHOLD).map
        AnomalyRecord.change_pct = some (some 6)
    ∧ (check_anomaly rows106 ("S") ("US") ("N") ANOMALY_THRESHOLD).map
        AnomalyRecord.direction = some ("暴涨")
    ∧ check_anomaly rows103 ("S") ("US") ("N") ANOMALY_THRESHOLD = none
    ∧ check_anomaly rowsPrev0 ("S") ("US") ("N") ANOMALY_THRESHOLD = none := by
  refine ⟨fun rows sy mk nm t => ?_, by decide,
    by decide, by decide, by decide⟩
  by_cases h1 : rows.length < 2
  · simp [check_anomaly, h1]
  · cases hp : prevCloseOf rows with
    | none => simp [check_anomaly, h1, hp]
    | some pc =>
      by_cases hz : pc = 0
      · simp [check_anomaly, h1, hp, hz]
      · by_cases ho : oltB (oabs (anomalyChange rows)) (some t) = true
        · simp [check_anomaly, h1, hp, hz, ho]
        · simp [check_anomaly, h1, hp, hz, ho]

-- ── C1: score aggregation ───────────────────────────────────────────────

set_option maxRecDepth 8000 in
/-- C1 (amended): for every enriched series with at least 2 rows (and a
defined last volume, without which the call raises), the score key of the
result is the arithmetic mean of all emitted votes ROUNDED TO 3 DECIMALS
(`round(score, 3)`), the label is computed from the unrounded mean, zero
votes give score 0, and votes of exactly +1 and −1 give score 0.0 and the
hold label 观望. -/
theorem C1_score_rounded_mean (df : EnrichedFrame) (h2 : 2 ≤ df.nrows)
    (hvol : (rcell df df.volume).isSome = true) :
    (generate_signals df).toOption.map SignalResult.score =
      some (pyRound 3 (if votesOf df = [] then 0 else meanQ (votesOf df)))
    ∧ (generate_signals df).toOption.map SignalResult.signal =
      some (score_to_signal (if votesOf df = [] then 0 else meanQ (votesOf df)))
    ∧ (votesOf df = [1, -1] →
        (generate_signals df).toOption.map SignalResult.score = some 0
        ∧ (generate_signals df).toOption.map SignalResult.signal = some ("观望")) := by
  obtain ⟨v, hv⟩ := Option.isSome_iff_exists.mp hvol
  have hn : ¬ df.nrows < 2 := Nat.not_lt.mpr h2
  rw [generate_signals, if_neg hn, hv]
  refine ⟨rfl, rfl, fun h12 => ⟨?_, ?_⟩⟩ <;>
    simp only [h12, Except.toOption, Option.map_some'] <;>
      decide

set_option maxRecDepth 8000 in
/-- Counterexample for C1 as stated: a series emitting exactly the votes
0.5, 0.5 and 0 has mean 1/3, but the returned score key is the rounded value
0.333 ≠ 1/3. -/
theorem C1_counterexample :
    votesOf exC1 = [0.5, 0.5, 0]
    ∧ meanQ (votesOf exC1) = 1/3
    ∧ (generate_signals exC1).toOption.map SignalResult.score = some (333/1000)
    ∧ ((333 : ℚ)/1000) ≠ 1/3 := by
  decide

set_option maxRecDepth 8000 in
/-- Witness for C1 on the concrete two-row frame. -/
theorem C1_witness :
    (generate_signals exC1).toOption.map SignalResult.score =
      some (pyRound 3 (if votesOf exC1 = [] then 0 else meanQ (votesOf exC1))) :=
  (C1_score_rounded_mean exC1 (by decide) (by decide)).1

-- ── C10: presence of the price_levels key ───────────────────────────────

/-- C10: the sentinel result of a <2-row series has no price_levels key,
while every successful result on a ≥2-row series carries the price_levels
entry of the last row, whose absent components are null. -/
theorem C10_price_levels_presence (df : EnrichedFrame) :
    (df.nrows < 2 → (generate_signals df).toOption.map SignalResult.price_levels = some none)
    ∧ (2 ≤ df.nrows → ∀ r, generate_signals df = Except.ok r →
        r.price_levels = some (priceLevelsOf df))
    ∧ (rcell df df.BOLL_upper = none → (priceLevelsOf df).boll_upper = none) := by
  refine ⟨fun h => ?_, fun h2 r hok => ?_, fun h => ?_⟩
  · rw [generate_signals, if_pos h]
    rfl
  · rw [generate_signals, if_neg (Nat.not_lt.mpr h2)] at hok
    cases hvv : rcell df df.volume with
    | none =>
      rw [hvv] at hok
      exact absurd hok (by simp)
    | some v =>
      rw [hvv] at hok
      injection hok with hr
      rw [← hr]
  · simp [priceLevelsOf, h]

set_option maxRecDepth 8000 in
/-- Witness for C10 on the concrete two-row frame. -/
theorem C10_witness : c10res.price_levels = some (priceLevelsOf exC10) :=
  (C10_price_levels_presence exC10).2.1 (by decide) c10res (by rfl)

-- ── C5: failure behaviour of the indicator pipeline ─────────────────────

/-- C5 (amended): for every square-root interpretation, `compute_all`
succeeds exactly when the four required columns close/high/low/volume are
present — the dates are never validated, so duplicate or non-monotonic
dates do NOT fail — and a missing required column raises the KeyError of
the first column accessed, in source access order close, high, low,
volume. -/
theorem C5_compute_failure_amended (sq : ℚ → ℚ) (raw : RawFrame) :
    (isOkE (compute_all sq raw) = true ↔
      ((raw.cols.lookup ("close")).isSome = true ∧ (raw.cols.lookup ("high")).isSome = true ∧
        (raw.cols.lookup ("low")).isSome = true ∧ (raw.cols.lookup ("volume")).isSome = true))
    ∧ (raw.cols.lookup ("close") = none →
        compute_all sq raw = Except.error ("KeyError: close"))
    ∧ ((raw.cols.lookup ("close")).isSome = true → raw.cols.lookup ("high") = none →
        compute_all sq raw = Except.error ("KeyError: high"))
    ∧ ((raw.cols.lookup ("close")).isSome = true → (raw.cols.lookup ("high")).isSome = true →
        raw.cols.lookup ("low") = none →
        compute_all sq raw = Except.error ("KeyError: low"))
    ∧ ((raw.cols.lookup ("close")).isSome = true → (raw.cols.lookup ("high")).isSome = true →
        (raw.cols.lookup ("low")).isSome = true → raw.cols.lookup ("volume") = none →
        compute_all sq raw = Except.error ("KeyError: volume")) := by
  cases hc : raw.cols.lookup ("close") <;>
    cases hh : raw.cols.lookup ("high") <;>
      cases hl : raw.cols.lookup ("low") <;>
        cases hvv : raw.cols.lookup ("volume") <;>
          simp [compute_all, hc, hh, hl, hvv, isOkE]

set_option maxRecDepth 8000 in
/-- Counterexample for C5 as stated: a frame with duplicate dates [7, 7]
violates the date precondition yet `compute_all` succeeds (no date check),
and on a 1-bar frame the OBV and MACD columns are defined (0), not
all-undefined. -/
theorem C5_counterexample :
    isOkE (compute_all (fun q => q) rawDup) = true
    ∧ rawDup.dates = [7, 7]
    ∧ (compute_all (fun q => q) raw1).toOption.map EnrichedFrame.OBV = some [some 0]
    ∧ (compute_all (fun q => q) raw1).toOption.map EnrichedFrame.MACD = some [some 0] := by
  decide

/-- Witness for C5 on a frame missing its close column. -/
theorem C5_witness :
    compute_all (fun q => q) rawMissing = Except.error ("KeyError: close") :=
  (C5_compute_failure_amended (fun q => q) rawMissing).2.1 (by decide)

-- ── C8: structural round trip of the pipeline ───────────────────────────

theorem lookup_mem_val {β : Type} (k : String) (l : List (String × β)) (b : β) :
    l.lookup k = some b → ∃ p ∈ l, p.2 = b := by
  induction l with
  | nil => intro h; simp [List.lookup] at h
  | cons hd tl ih =>
    intro h
    obtain ⟨a, c⟩ := hd
    rw [List.lookup] at h
    by_cases hk : (k == a) = true
    · simp only [hk] at h
      injection h with hb
      exact ⟨(a, c), List.mem_cons_self _ _, hb⟩
    · simp only [Bool.not_eq_true] at hk
      simp only [hk] at h
      obtain ⟨p, hp, hpb⟩ := ih h
      exact ⟨p, List.mem_cons_of_mem _ hp, hpb⟩

theorem lookup_col_length (raw : RawFrame) (hWF : raw.WF) (k : String)
    (l : List (Option ℚ)) (h : raw.cols.lookup k = some l) :
    l.length = raw.dates.length := by
  obtain ⟨p, hp, hpl⟩ := lookup_mem_val k raw.cols l h
  rw [← hpl]
  exact hWF p hp

/-- C8: for every square-root interpretation and every well-formed raw frame
of n rows, the enriched frame has exactly n rows in every column and the
same date sequence; the input frame itself is untouched (the source copies
it, and this embedding is pure). -/
theorem C8_round_trip (sq : ℚ → ℚ) (raw : RawFrame) (hWF : raw.WF) (e : EnrichedFrame)
    (hok : compute_all sq raw = Except.ok e) :
    e.dates = raw.dates ∧ e.nrows = raw.dates.length ∧ e.allColsLen := by
  rcases hc : raw.cols.lookup ("close") with _ | close
  · rw [compute_all, hc] at hok
    exact absurd hok (by simp)
  rcases hh : raw.cols.lookup ("high") with _ | high
  · rw [compute_all, hc, hh] at hok
    exact absurd hok (by simp)
  rcases hl : raw.cols.lookup ("low") with _ | low
  · rw [compute_all, hc, hh, hl] at hok
    exact absurd hok (by simp)
  rcases hvv : raw.cols.lookup ("volume") with _ | volume
  · rw [compute_all, hc, hh, hl, hvv] at hok
    exact absurd hok (by simp)
  rw [compute_all, hc, hh, hl, hvv] at hok
  injection hok with hr
  subst hr
  have hcl := lookup_col_length raw hWF _ _ hc
  have hhl := lookup_col_length raw hWF _ _ hh
  have hll := lookup_col_length raw hWF _ _ hl
  have hvl := lookup_col_length raw hWF _ _ hvv
  refine ⟨rfl, rfl, ?_⟩
  unfold EnrichedFrame.allColsLen
  simp [hcl, hhl, hll, hvl]

set_option maxRecDepth 8000 in
/-- Witness for C8 on a concrete two-bar frame. -/
theorem C8_witness :
    (compute_all (fun q => q) rawC8).toOption.map EnrichedFrame.dates = some [1, 2] := by
  have hok : compute_all (fun q => q) rawC8 = Except.ok c8res := by rfl
  have h := C8_round_trip (fun q => q) rawC8 (by decide) c8res hok
  rw [hok]
  simp only [Except.toOption, Option.map_some']
  rw [h.1]
  rfl

-- ── C9: RSI and MFI range bounds ────────────────────────────────────────

theorem ewmNum_nonneg (a : ℚ) (xs : List (Option ℚ)) (t : ℕ) (ha : a ≤ 1)
    (hxs : ∀ i v, cell xs i = some v → 0 ≤ v) : 0 ≤ ewmNum a xs t := by
  rw [ewmNum]
  apply List.sum_nonneg
  intro x hx
  obtain ⟨i, hi, hfi⟩ := List.mem_map.mp hx
  rw [← hfi]
  cases hcell : cell xs i with
  | none => simp [hcell]
  | some v =>
    simp only [hcell]
    exact mul_nonneg (pow_nonneg (by linarith) _) (hxs i v hcell)

theorem ewmDen_pos (a : ℚ) (xs : List (Option ℚ)) (t : ℕ) (ha : a < 1)
    (hcnt : 1 ≤ ewmCount xs t) : 0 < ewmDen a xs t := by
  have hne : ((List.range (t + 1)).filter (fun i => (cell xs i).isSome)) ≠ [] := by
    intro hnil
    rw [ewmCount, hnil] at hcnt
    simp at hcnt
  obtain ⟨j, hj⟩ := List.exists_mem_of_ne_nil _ hne
  have hjr : j ∈ List.range (t + 1) := (List.mem_filter.mp hj).1
  have hjs : (cell xs j).isSome = true := by simpa using (List.mem_filter.mp hj).2
  have hmem : (1 - a) ^ (t - j) ∈ (List.range (t + 1)).map (fun i =>
      if (cell xs i).isSome then (1 - a) ^ (t - i) else 0) := by
    refine List.mem_map.mpr ⟨j, hjr, ?_⟩
    rw [if_pos hjs]
  have hall : ∀ x ∈ (List.range (t + 1)).map (fun i =>
      if (cell xs i).isSome then (1 - a) ^ (t - i) else 0), 0 ≤ x := by
    intro x hx
    obtain ⟨i, hi, hfi⟩ := List.mem_map.mp hx
    rw [← hfi]
    split
    · exact pow_nonneg (by linarith) _
    · exact le_rfl
  have hle := List.single_le_sum hall _ hmem
  rw [ewmDen]
  exact lt_of_lt_of_le (pow_pos (by linarith) _) hle

theorem ewmAdj_cell_nonneg (a : ℚ) (mp : ℕ) (xs : List (Option ℚ)) (t : ℕ) (v : ℚ)
    (ha : a < 1) (hxs : ∀ i u, cell xs i = some u → 0 ≤ u)
    (h : cell (ewmAdj a mp xs) t = some v) : 0 ≤ v := by
  rw [ewmAdj, cell_idxMap] at h
  by_cases ht : t < xs.length
  · rw [if_pos ht] at h
    by_cases hcnt : max mp 1 ≤ ewmCount xs t
    · rw [if_pos hcnt] at h
      injection h with hv
      rw [← hv]
      exact div_nonneg (ewmNum_nonneg a xs t (le_of_lt ha) hxs)
        (le_of_lt (ewmDen_pos a xs t ha (le_trans (le_max_right mp 1) hcnt)))
    · rw [if_neg hcnt] at h
      simp at h
  · rw [if_neg ht] at h
    simp at h

theorem clipLo0_cell_nonneg (xs : List (Option ℚ)) (i : ℕ) (v : ℚ)
    (h : cell (clipLo0 xs) i = some v) : 0 ≤ v := by
  rw [clipLo0, cell_map] at h
  cases hc : cell xs i with
  | none => rw [hc] at h; simp at h
  | some x =>
    rw [hc] at h
    simp only [Option.map_some'] at h
    injection h with hv
    rw [← hv]
    exact le_max_right x 0

theorem negClipHi0_cell_nonneg (xs : List (Option ℚ)) (i : ℕ) (v : ℚ)
    (h : cell (negClipHi0 xs) i = some v) : 0 ≤ v := by
  rw [negClipHi0, cell_map] at h
  cases hc : cell xs i with
  | none => rw [hc] at h; simp at h
  | some x =>
    rw [hc] at h
    simp only [Option.map_some'] at h
    injection h with hv
    rw [← hv]
    exact neg_nonneg.mpr (min_le_right x 0)

theorem seqO_mem (ms : List (Option ℚ)) (l : List ℚ) (h : seqO ms = some l) :
    ∀ x ∈ l, some x ∈ ms := by
  induction ms generalizing l with
  | nil =>
    rw [seqO] at h
    injection h with h2
    rw [← h2]
    intro x hx
    simp at hx
  | cons hd tl ih =>
    cases hd with
    | none => simp [seqO] at h
    | some y =>
      rw [seqO] at h
      cases hs : seqO tl with
      | none => rw [hs] at h; simp at h
      | some l2 =>
        rw [hs] at h
        simp only [Option.map_some'] at h
        injection h with h2
        rw [← h2]
        intro x hx
        rcases List.mem_cons.mp hx with hx1 | hx2
        · rw [hx1]
          exact List.mem_cons_self _ _
        · exact List.mem_cons_of_mem _ (ih l2 hs x hx2)

theorem rollingSum_cell_nonneg (w : ℕ) (xs : List (Option ℚ)) (t : ℕ) (s : ℚ)
    (hxs : ∀ i u, cell xs i = some u → 0 ≤ u)
    (h : cell (rollingSum w xs) t = some s) : 0 ≤ s := by
  rw [rollingSum, cell_idxMap] at h
  by_cases ht : t < xs.length
  · rw [if_pos ht] at h
    cases hw : rollWindow w xs t with
    | none => rw [hw] at h; simp at h
    | some l =>
      rw [hw] at h
      simp only [Option.map_some'] at h
      injection h with h2
      rw [← h2]
      apply List.sum_nonneg
      intro x hx
      have hmem : some x ∈ (List.range w).map (fun j => cell xs (t + 1 - w + j)) := by
        rw [rollWindow] at hw
        by_cases hwt : w ≤ t + 1
        · rw [if_pos hwt] at hw
          exact seqO_mem _ l hw x hx
        · rw [if_neg hwt] at hw
          simp at hw
      obtain ⟨j, hj, hfj⟩ := List.mem_map.mp hmem
      exact hxs _ x hfj
  · rw [if_neg ht] at h
    simp at h

theorem typCol_cell_nonneg (h l c : List (Option ℚ))
    (hh : ∀ i u, cell h i = some u → 0 ≤ u) (hl : ∀ i u, cell l i = some u → 0 ≤ u)
    (hc : ∀ i u, cell c i = some u → 0 ≤ u) :
    ∀ i u, cell (Indicators.typCol h l c) i = some u → 0 ≤ u := by
  intro i u hu
  rw [Indicators.typCol, cell_idxMap] at hu
  by_cases hi : i < h.length
  · rw [if_pos hi] at hu
    cases hha : cell h i with
    | none => simp [hha] at hu
    | some a =>
      cases hla : cell l i with
      | none => simp [hha, hla] at hu
      | some b =>
        cases hca : cell c i with
        | none => simp [hha, hla, hca] at hu
        | some d =>
          simp only [hha, hla, hca] at hu
          injection hu with hu2
          rw [← hu2]
          have h1 := hh i a hha
          have h2 := hl i b hla
          have h3 := hc i d hca
          have : (0:ℚ) ≤ a + b + d := by linarith
          exact div_nonneg this (by norm_num)
  · rw [if_neg hi] at hu
    simp at hu

theorem rawMF_cell_nonneg (h l c v : List (Option ℚ))
    (htyp : ∀ i u, cell (Indicators.typCol h l c) i = some u → 0 ≤ u)
    (hv : ∀ i u, cell v i = some u → 0 ≤ u) :
    ∀ i u, cell (Indicators.rawMFCol h l c v) i = some u → 0 ≤ u := by
  intro i u hu
  rw [Indicators.rawMFCol, zipCells, cell_idxMap] at hu
  by_cases hi : i < (Indicators.typCol h l c).length
  · rw [if_pos hi] at hu
    cases ht : cell (Indicators.typCol h l c) i with
    | none => simp [omul, ht] at hu
    | some ty =>
      cases hvc : cell v i with
      | none => simp [omul, ht, hvc] at hu
      | some vol =>
        simp only [omul, ht, hvc] at hu
        injection hu with hu2
        rw [← hu2]
        exact mul_nonneg (htyp i ty ht) (hv i vol hvc)
  · rw [if_neg hi] at hu
    simp at hu

theorem posMF_cell_nonneg (h l c v : List (Option ℚ))
    (hraw : ∀ i u, cell (Indicators.rawMFCol h l c v) i = some u → 0 ≤ u) :
    ∀ t u, cell (Indicators.posMFCol h l c v) t = some u → 0 ≤ u := by
  intro t u hu
  rw [Indicators.posMFCol, cell_idxMap] at hu
  by_cases ht : t < h.length
  · rw [if_pos ht] at hu
    by_cases hcond : ogtB (cell (Indicators.typCol h l c) t)
        (if 1 ≤ t then cell (Indicators.typCol h l c) (t - 1) else none) = true
    · rw [if_pos hcond] at hu
      exact hraw t u hu
    · rw [if_neg hcond] at hu
      injection hu with hu2
      rw [← hu2]
  · rw [if_neg ht] at hu
    simp at hu

theorem negMF_cell_nonneg (h l c v : List (Option ℚ))
    (hraw : ∀ i u, cell (Indicators.rawMFCol h l c v) i = some u → 0 ≤ u) :
    ∀ t u, cell (Indicators.negMFCol h l c v) t = some u → 0 ≤ u := by
  intro t u hu
  rw [Indicators.negMFCol, cell_idxMap] at hu
  by_cases ht : t < h.length
  · rw [if_pos ht] at hu
    by_cases hcond : oltB (cell (Indicators.typCol h l c) t)
        (if 1 ≤ t then cell (Indicators.typCol h l c) (t - 1) else none) = true
    · rw [if_pos hcond] at hu
      exact hraw t u hu
    · rw [if_neg hcond] at hu
      injection hu with hu2
      rw [← hu2]
  · rw [if_neg ht] at hu
    simp at hu

theorem rsiCol_cell_bounds (close : List (Option ℚ)) (t : ℕ) (v : ℚ)
    (h : cell (Indicators.rsiCol close) t = some v) : 0 ≤ v ∧ v ≤ 100 := by
  rw [Indicators.rsiCol, cell_idxMap] at h
  by_cases ht : t < close.length
  · rw [if_pos ht] at h
    cases hg : cell (Indicators.rsiAvgGain close) t with
    | none => simp [hg] at h
    | some g =>
      cases hl2 : cell (Indicators.rsiAvgLoss close) t with
      | none => simp [hg, hl2] at h
      | some l =>
        simp only [hg, hl2] at h
        by_cases hz : l = 0
        · rw [if_pos hz] at h
          simp at h
        · rw [if_neg hz] at h
          injection h with hv
          have hg0 : 0 ≤ g := by
            rw [Indicators.rsiAvgGain] at hg
            exact ewmAdj_cell_nonneg _ _ _ _ _ (by norm_num [rsi_period])
              (fun i u hu => clipLo0_cell_nonneg _ i u hu) hg
          have hl0 : 0 ≤ l := by
            rw [Indicators.rsiAvgLoss] at hl2
            exact ewmAdj_cell_nonneg _ _ _ _ _ (by norm_num [rsi_period])
              (fun i u hu => negClipHi0_cell_nonneg _ i u hu) hl2
          have hlp : 0 < l := lt_of_le_of_ne hl0 (Ne.symm hz)
          have hr0 : 0 ≤ g / l := div_nonneg hg0 hl0
          have h1 : (1:ℚ) ≤ 1 + g / l := by linarith
          have hq1 : 0 < 100 / (1 + g / l) := by positivity
          have hq2 : 100 / (1 + g / l) ≤ 100 := div_le_self (by norm_num) h1
          rw [← hv]
          constructor <;> linarith
  · rw [if_neg ht] at h
    simp at h

theorem mfiCol_cell_bounds (h l c v : List (Option ℚ))
    (hh : ∀ i u, cell h i = some u → 0 ≤ u) (hl : ∀ i u, cell l i = some u → 0 ≤ u)
    (hc : ∀ i u, cell c i = some u → 0 ≤ u) (hv : ∀ i u, cell v i = some u → 0 ≤ u)
    (t : ℕ) (m : ℚ) (hm : cell (Indicators.mfiCol h l c v) t = some m) :
    0 ≤ m ∧ m ≤ 100 := by
  have htyp := typCol_cell_nonneg h l c hh hl hc
  have hraw := rawMF_cell_nonneg h l c v htyp hv
  rw [Indicators.mfiCol, cell_idxMap] at hm
  by_cases ht : t < h.length
  · rw [if_pos ht] at hm
    cases hp : cell (Indicators.mfiPosSum h l c v) t with
    | none => simp [hp] at hm
    | some p =>
      cases hn : cell (Indicators.mfiNegSum h l c v) t with
      | none => simp [hp, hn] at hm
      | some n =>
        simp only [hp, hn] at hm
        by_cases hz : n = 0
        · rw [if_pos hz] at hm
          simp at hm
        · rw [if_neg hz] at hm
          injection hm with hm2
          have hp0 : 0 ≤ p := by
            rw [Indicators.mfiPosSum] at hp
            exact rollingSum_cell_nonneg _ _ _ _ (posMF_cell_nonneg h l c v hraw) hp
          have hn0 : 0 ≤ n := by
            rw [Indicators.mfiNegSum] at hn
            exact rollingSum_cell_nonneg _ _ _ _ (negMF_cell_nonneg h l c v hraw) hn
          have hnp : 0 < n := lt_of_le_of_ne hn0 (Ne.symm hz)
          have hr0 : 0 ≤ p / n := div_nonneg hp0 hn0
          have h1 : (1:ℚ) ≤ 1 + p / n := by linarith
          have hq1 : 0 < 100 / (1 + p / n) := by positivity
          have hq2 : 100 / (1 + p / n) ≤ 100 := div_le_self (by norm_num) h1
          rw [← hm2]
          constructor <;> linarith
  · rw [if_neg ht] at hm
    simp at hm

theorem allNonneg_of_all (xs : List (Option ℚ)) (h : xs.all onn = true) :
    ∀ i v, cell xs i = some v → 0 ≤ v := by
  intro i v hv
  rw [cell, List.getD_eq_getElem?_getD] at hv
  cases hx : xs[i]? with
  | none => rw [hx] at hv; simp at hv
  | some o =>
    rw [hx] at hv
    simp only [Option.getD_some] at hv
    have hmem : o ∈ xs := List.getElem?_mem hx
    have hall := List.all_eq_true.mp h o hmem
    rw [hv] at hall
    simpa [onn] using hall

/-- C9 (amended): whenever RSI is defined it lies in [0, 100]; whenever MFI
is defined it lies in [0, 100] PROVIDED every bar's high/low/close/volume
values are nonnegative (with negative typical prices the money-flow buckets
can go negative and MFI leaves the range); the zero-denominator cases
(avg_loss = 0 for RSI, neg_sum = 0 for MFI) yield an undefined value, never
infinity. -/
theorem C9_rsi_mfi_bounds_amended :
    (∀ (close : List (Option ℚ)) (t : ℕ) (v : ℚ),
        cell (Indicators.rsiCol close) t = some v → 0 ≤ v ∧ v ≤ 100)
    ∧ (∀ (close : List (Option ℚ)) (t : ℕ),
        cell (Indicators.rsiAvgLoss close) t = some 0 →
        cell (Indicators.rsiCol close) t = none)
    ∧ (∀ (h l c v : List (Option ℚ)),
        (∀ i u, cell h i = some u → 0 ≤ u) → (∀ i u, cell l i = some u → 0 ≤ u) →
        (∀ i u, cell c i = some u → 0 ≤ u) → (∀ i u, cell v i = some u → 0 ≤ u) →
        ∀ t m, cell (Indicators.mfiCol h l c v) t = some m → 0 ≤ m ∧ m ≤ 100)
    ∧ (∀ (h l c v : List (Option ℚ)) (t : ℕ),
        cell (Indicators.mfiNegSum h l c v) t = some 0 →
        cell (Indicators.mfiCol h l c v) t = none) := by
  refine ⟨fun close t v h => rsiCol_cell_bounds close t v h, ?_,
    fun h l c v hh hl hc hv t m hm => mfiCol_cell_bounds h l c v hh hl hc hv t m hm, ?_⟩
  · intro close t h0
    rw [Indicators.rsiCol, cell_idxMap]
    by_cases ht : t < close.length
    · rw [if_pos ht]
      cases hg : cell (Indicators.rsiAvgGain close) t with
      | none => simp [hg]
      | some g => simp [hg, h0]
    · rw [if_neg ht]
  · intro h l c v t h0
    rw [Indicators.mfiCol, cell_idxMap]
    by_cases ht : t < h.length
    · rw [if_pos ht]
      cases hp : cell (Indicators.mfiPosSum h l c v) t with
      | none => simp [hp]
      | some p => simp [hp, h0]
    · rw [if_neg ht]

set_option maxRecDepth 8000 in
/-- Counterexample for C9 as stated: on a degenerate series whose typical
price dips to −2 (closes 0 ×13, 1, −2; unit volume), the MFI at bar 14 is
defined and equals −100, outside [0, 100]. -/
theorem C9_counterexample :
    cell (Indicators.mfiCol c9c c9c c9c c9v) 14 = some (-100)
    ∧ ¬((0:ℚ) ≤ -100) := by
  decide

set_option maxRecDepth 8000 in
/-- Witness for C9: RSI of the alternating series is 1300/27 and MFI of the
nonnegative series is 75, both within [0, 100]. -/
theorem C9_witness :
    ((0:ℚ) ≤ 1300/27 ∧ (1300/27 : ℚ) ≤ 100) ∧ ((0:ℚ) ≤ 75 ∧ (75:ℚ) ≤ 100) :=
  ⟨C9_rsi_mfi_bounds_amended.1 c9rc 14 (1300/27) (by decide),
   C9_rsi_mfi_bounds_amended.2.2.1 c9mh c9mh c9mh c9v
     (allNonneg_of_all c9mh (by decide))
     (allNonneg_of_all c9mh (by decide))
     (allNonneg_of_all c9mh (by decide))
     (allNonneg_of_all c9v (by decide))
     14 75 (by decide)⟩

set_option maxRecDepth 8000 in
/-- Witness for C7: the absence characterisation applied at the +3% series. -/
theorem C7_witness :
    check_anomaly rows103 ("S") ("US") ("N") ANOMALY_THRESHOLD = none :=
  (C7_check_anomaly_spec.1 rows103 ("S") ("US") ("N") ANOMALY_THRESHOLD).mpr
    (Or.inr (Or.inr (Or.inr (by decide))))
